import Mathlib

/-!
Verification of the topology data models of `src/r2x/models/topology.py`.

The pydantic models are shallowly embedded: python floats become `ℚ`,
python ints become `ℤ`, optional fields become `Option`, and construction
(pydantic validation) becomes a total Lean function returning
`Except (List FieldError) α` — the error case standing for a raised
`ValidationError` carrying one entry per offending field.

Collaborator types that the excerpt imports from elsewhere in the
repository (`BaseComponent`, `MinMax`, `Voltage`/`ureg`, `ACBusTypes`) are
modelled from the specification, each marked in its doc comment.
-/

set_option autoImplicit false

/-- One entry of a ValidationError: the offending field and the reason. -/
structure FieldError where
  loc : String
  msg : String
deriving Repr, DecidableEq

/-- Result of constructing (validating) an entity: either the entity or the
list of per-field errors of the raised ValidationError. -/
abbrev VResult (α : Type) := Except (List FieldError) α

/-- Boolean success test on a construction result. -/
def isOkE {α : Type} : VResult α → Bool
  | .ok _ => true
  | .error _ => false

/-- Modelled from the spec: `ACBusTypes` (imported from `r2x.enums`, not in
the excerpt) is "a finite closed set of role tags" for bus electrical
roles, "e.g. slack/PV/PQ"; the excerpt uses the `PV` tag. -/
inductive ACBusTypes where
  | PV
  | PQ
  | REF
  | SLACK
  | ISOLATED
deriving Repr, DecidableEq

/-- Modelled from the spec: the dimension tag of a unit-tagged quantity
(the unit registry `ureg` of `r2x.units` is not in the excerpt); the spec
only requires "a quantity type supporting unit-dimension checking and
positivity comparison". -/
inductive UnitDim where
  | voltage
  | power
  | dimensionless
deriving Repr, DecidableEq

/-- Modelled from the spec: a unit-tagged quantity — "a value type pairing
a numeric magnitude with a unit tag from a closed registry". -/
structure Quantity where
  magnitude : ℚ
  dim : UnitDim
deriving Repr, DecidableEq

/-- The bounded pair `MinMax` (imported from `r2x.models.named_tuples`,
not in the excerpt): a min/max numeric range value. -/
structure MinMax where
  min : ℚ
  max : ℚ
deriving Repr, DecidableEq

/-- Modelled from the spec: the bounded-pair value's own constructor
contract — "a min/max pair with min ≤ max enforcement"; violation fails
with a ValidationError. -/
def MinMax.construct (mn mx : ℚ) : VResult MinMax :=
  if mn ≤ mx then .ok ⟨mn, mx⟩ else .error [⟨"voltage_limits", "min greater than max"⟩]

/-- Modelled from the spec: `BaseComponent` (from `r2x.models.core`, not in
the excerpt) provides identity — "`name` (text identifier, may be empty
unless overridden)" — with no constraint of its own on the name.
`Topology(BaseComponent)` adds no fields. -/
structure Topology where
  name : String
deriving Repr, DecidableEq

/-- Constructing a bare `Topology`: the name is unconstrained text, so
construction always succeeds. -/
def Topology.construct (name : String) : VResult Topology :=
  .ok ⟨name⟩

/-- `AggregationTopology(Topology)`: base class for area-type components,
no extra fields. -/
structure AggregationTopology where
  name : String
deriving Repr, DecidableEq

/-- Constructing a bare `AggregationTopology` always succeeds. -/
def AggregationTopology.construct (name : String) : VResult AggregationTopology :=
  .ok ⟨name⟩

/-- `Area(AggregationTopology)`: collection of buses in a given region. -/
structure Area where
  name : String
  peak_active_power : ℚ
  peak_reactive_power : ℚ
  load_response : ℚ
deriving Repr, DecidableEq

/-- Constructing an `Area`: `peak_active_power` and `peak_reactive_power`
are `NonNegativeFloat` (default 0.0); `load_response` is an unconstrained
float (default 0.0). All violated fields are collected into one error. -/
def Area.construct (name : String) (peak_active_power : ℚ := 0)
    (peak_reactive_power : ℚ := 0) (load_response : ℚ := 0) : VResult Area :=
  let errs : List FieldError :=
    (if peak_active_power < 0 then [⟨"peak_active_power", "greater than or equal to 0"⟩] else []) ++
    (if peak_reactive_power < 0 then [⟨"peak_reactive_power", "greater than or equal to 0"⟩] else [])
  if errs.isEmpty then .ok ⟨name, peak_active_power, peak_reactive_power, load_response⟩
  else .error errs

/-- `LoadZone(AggregationTopology)`: collection of buses for electricity
price analysis. -/
structure LoadZone where
  name : String
  peak_active_power : ℚ
  peak_reactive_power : ℚ
deriving Repr, DecidableEq

/-- Constructing a `LoadZone`: both peak power fields are
`NonNegativeFloat` with default 0.0. -/
def LoadZone.construct (name : String) (peak_active_power : ℚ := 0)
    (peak_reactive_power : ℚ := 0) : VResult LoadZone :=
  let errs : List FieldError :=
    (if peak_active_power < 0 then [⟨"peak_active_power", "greater than or equal to 0"⟩] else []) ++
    (if peak_reactive_power < 0 then [⟨"peak_reactive_power", "greater than or equal to 0"⟩] else [])
  if errs.isEmpty then .ok ⟨name, peak_active_power, peak_reactive_power⟩
  else .error errs

/-- `Bus(Topology)`: electrical connection point. `number` is required and
`PositiveInt`; every other declared field is optional with default `None`. -/
structure Bus where
  name : String
  number : ℤ
  bustype : Option ACBusTypes
  area : Option Area
  load_zone : Option LoadZone
  voltage_limits : Option MinMax
  base_voltage : Option Quantity
  magnitude : Option ℚ
deriving Repr, DecidableEq

/-- Field checks shared by the whole Bus family, one error entry per
violated field, in field-declaration order:
`number` must be a positive integer; `voltage_limits` must satisfy the
bounded pair's min ≤ max contract; `base_voltage` carries `Field(gt=0)`
and must be a voltage-dimensioned quantity (the `Voltage` annotated type
of `r2x.units`); `magnitude` is `NonNegativeFloat`. -/
def busFieldErrors (number : ℤ) (voltage_limits : Option (ℚ × ℚ))
    (base_voltage : Option Quantity) (magnitude : Option ℚ) : List FieldError :=
  (if number ≤ 0 then [⟨"number", "greater than 0"⟩] else []) ++
  (match voltage_limits with
   | none => []
   | some (mn, mx) => match MinMax.construct mn mx with
     | .ok _ => []
     | .error es => es) ++
  (match base_voltage with
   | none => []
   | some q =>
     (if q.dim ≠ UnitDim.voltage then [⟨"base_voltage", "unit dimension mismatch"⟩] else []) ++
     (if q.magnitude ≤ 0 then [⟨"base_voltage", "greater than 0"⟩] else [])) ++
  (match magnitude with
   | none => []
   | some m => if m < 0 then [⟨"magnitude", "greater than or equal to 0"⟩] else [])

/-- Constructing a `Bus` directly (the class body declares no mechanism
preventing instantiation); optional fields default to `none`. -/
def Bus.construct (name : String) (number : ℤ)
    (bustype : Option ACBusTypes := none) (area : Option Area := none)
    (load_zone : Option LoadZone := none) (voltage_limits : Option (ℚ × ℚ) := none)
    (base_voltage : Option Quantity := none) (magnitude : Option ℚ := none) :
    VResult Bus :=
  let errs := busFieldErrors number voltage_limits base_voltage magnitude
  if errs.isEmpty then
    .ok ⟨name, number, bustype, area, load_zone,
         voltage_limits.map (fun p => ⟨p.1, p.2⟩), base_voltage, magnitude⟩
  else .error errs

/-- `DCBus(Bus)`: power-system DC bus, no extra fields. -/
structure DCBus where
  name : String
  number : ℤ
  bustype : Option ACBusTypes
  area : Option Area
  load_zone : Option LoadZone
  voltage_limits : Option MinMax
  base_voltage : Option Quantity
  magnitude : Option ℚ
deriving Repr, DecidableEq

/-- Constructing a `DCBus`: exactly the inherited Bus checks. -/
def DCBus.construct (name : String) (number : ℤ)
    (bustype : Option ACBusTypes := none) (area : Option Area := none)
    (load_zone : Option LoadZone := none) (voltage_limits : Option (ℚ × ℚ) := none)
    (base_voltage : Option Quantity := none) (magnitude : Option ℚ := none) :
    VResult DCBus :=
  let errs := busFieldErrors number voltage_limits base_voltage magnitude
  if errs.isEmpty then
    .ok ⟨name, number, bustype, area, load_zone,
         voltage_limits.map (fun p => ⟨p.1, p.2⟩), base_voltage, magnitude⟩
  else .error errs

/-- `ACBus(Bus)`: power-system AC bus; adds `angle`, an optional float
with `Field(gt=-1.571, lt=1.571)`. -/
structure ACBus where
  name : String
  number : ℤ
  bustype : Option ACBusTypes
  area : Option Area
  load_zone : Option LoadZone
  voltage_limits : Option MinMax
  base_voltage : Option Quantity
  magnitude : Option ℚ
  angle : Option ℚ
deriving Repr, DecidableEq

/-- The `angle` check of `ACBus`: when present the value must lie strictly
between -1.571 and 1.571. -/
def angleFieldErrors (angle : Option ℚ) : List FieldError :=
  match angle with
  | none => []
  | some a =>
    (if a ≤ -(1571/1000 : ℚ) then [⟨"angle", "greater than -1.571"⟩] else []) ++
    (if (1571/1000 : ℚ) ≤ a then [⟨"angle", "less than 1.571"⟩] else [])

/-- Constructing an `ACBus`: the inherited Bus checks plus the `angle`
open-interval check. -/
def ACBus.construct (name : String) (number : ℤ)
    (bustype : Option ACBusTypes := none) (area : Option Area := none)
    (load_zone : Option LoadZone := none) (voltage_limits : Option (ℚ × ℚ) := none)
    (base_voltage : Option Quantity := none) (magnitude : Option ℚ := none)
    (angle : Option ℚ := none) : VResult ACBus :=
  let errs := busFieldErrors number voltage_limits base_voltage magnitude ++
    angleFieldErrors angle
  if errs.isEmpty then
    .ok ⟨name, number, bustype, area, load_zone,
         voltage_limits.map (fun p => ⟨p.1, p.2⟩), base_voltage, magnitude, angle⟩
  else .error errs

/-- `Arc(Topology)`: topological directed edge connecting two buses. Its
`name` field is declared `Field(frozen=True, exclude=True)` with default
`""`: `frozen` forbids assignment after construction (a value supplied at
construction is still stored) and `exclude` drops it from serialization. -/
structure Arc where
  name : String
  from_to : Bus
  to_from : Bus
deriving Repr, DecidableEq

/-- Constructing an `Arc`: both endpoints are validated Bus values; the
optional `name` defaults to the empty string and is stored verbatim when
supplied (it is frozen only against later mutation). -/
def Arc.construct (from_to : Bus) (to_from : Bus) (name : Option String := none) :
    VResult Arc :=
  .ok ⟨name.getD "", from_to, to_from⟩

/-- Serialized representation of an `Arc` (pydantic dump): field name paired
with its value; `name` is excluded by `Field(exclude=True)`. The endpoint
buses are kept opaque here. -/
def Arc.model_dump (a : Arc) : List (String × Bus) :=
  [("from_to", a.from_to), ("to_from", a.to_from)]

/-- Revalidation of an `Area`: runs the construction checks on the stored
field values. -/
def Area.validate (a : Area) : VResult Area :=
  Area.construct a.name a.peak_active_power a.peak_reactive_power a.load_response

/-- Revalidation of a `LoadZone`. -/
def LoadZone.validate (z : LoadZone) : VResult LoadZone :=
  LoadZone.construct z.name z.peak_active_power z.peak_reactive_power

/-- Revalidation of a `DCBus`. -/
def DCBus.validate (b : DCBus) : VResult DCBus :=
  DCBus.construct b.name b.number b.bustype b.area b.load_zone
    (b.voltage_limits.map (fun p => (p.min, p.max))) b.base_voltage b.magnitude

/-- Revalidation of an `ACBus`. -/
def ACBus.validate (b : ACBus) : VResult ACBus :=
  ACBus.construct b.name b.number b.bustype b.area b.load_zone
    (b.voltage_limits.map (fun p => (p.min, p.max))) b.base_voltage b.magnitude b.angle

/-- `Area.example()`: `Area(name="New York")`, all other fields from their
defaults. -/
def Area.example : VResult Area :=
  Area.construct "New York"

/-- `LoadZone.example()`: `LoadZone(name="ExampleLoadZone")`. -/
def LoadZone.example : VResult LoadZone :=
  LoadZone.construct "ExampleLoadZone"

/-- `DCBus.example()`: number 1, name "ExampleBus", the Area and LoadZone
examples, `base_voltage = 20 * ureg.kV` (a voltage-dimensioned quantity of
magnitude 20), bustype PV. -/
def DCBus.example : VResult DCBus := do
  let a ← Area.example
  let z ← LoadZone.example
  DCBus.construct "ExampleBus" 1 (some ACBusTypes.PV) (some a) (some z)
    none (some ⟨20, UnitDim.voltage⟩) none

/-- `ACBus.example()`: number 1, name "ExampleBus", the Area and LoadZone
examples, `base_voltage = 13 * ureg.kV`, `voltage_limits = MinMax(0.9, 1.1)`,
bustype PV. -/
def ACBus.example : VResult ACBus := do
  let a ← Area.example
  let z ← LoadZone.example
  ACBus.construct "ExampleBus" 1 (some ACBusTypes.PV) (some a) (some z)
    (some (9/10, 11/10)) (some ⟨13, UnitDim.voltage⟩) none

/-- Raw python values that can appear in a construction mapping passed to a
model: primitives, collaborator values, and already-validated nested
entities (pydantic accepts model instances for model-typed fields). -/
inductive PyValue where
  | vstr (s : String)
  | vint (n : ℤ)
  | vrat (q : ℚ)
  | vbustype (b : ACBusTypes)
  | vquantity (q : Quantity)
  | vpair (mn mx : ℚ)
  | varea (a : Area)
  | vloadzone (z : LoadZone)
  | vbus (b : Bus)
deriving Repr, DecidableEq

/-- An input mapping: field name to supplied value. -/
abbrev FieldMap := List (String × PyValue)

/-- First value bound to a key in the mapping. -/
def flookup (m : FieldMap) (k : String) : Option PyValue :=
  (m.find? (fun kv => kv.1 == k)).map Prod.snd

/-- Errors contributed by one field check. -/
def errsOf {α : Type} : Except FieldError α → List FieldError
  | .ok _ => []
  | .error e => [e]

/-- Value of a succeeded field check (the default is never reached when the
overall error list is empty). -/
def okD {α : Type} (e : Except FieldError α) (d : α) : α :=
  match e with
  | .ok a => a
  | .error _ => d

/-- Required string field (the `name` of `BaseComponent`). -/
def getStr (m : FieldMap) (k : String) : Except FieldError String :=
  match flookup m k with
  | some (.vstr s) => .ok s
  | some _ => .error ⟨k, "Input should be a valid string"⟩
  | none => .error ⟨k, "Field required"⟩

/-- Optional string field with a default (the overridden `name` of `Arc`). -/
def getStrD (m : FieldMap) (k : String) (d : String) : Except FieldError String :=
  match flookup m k with
  | some (.vstr s) => .ok s
  | some _ => .error ⟨k, "Input should be a valid string"⟩
  | none => .ok d

/-- Float field with a default; ints coerce to floats. -/
def getRatD (m : FieldMap) (k : String) (d : ℚ) : Except FieldError ℚ :=
  match flookup m k with
  | some (.vrat q) => .ok q
  | some (.vint n) => .ok (n : ℚ)
  | some _ => .error ⟨k, "Input should be a valid number"⟩
  | none => .ok d

/-- `NonNegativeFloat` field with a default. -/
def getNonNegRatD (m : FieldMap) (k : String) (d : ℚ) : Except FieldError ℚ :=
  match getRatD m k d with
  | .ok q => if q < 0 then .error ⟨k, "greater than or equal to 0"⟩ else .ok q
  | .error e => .error e

/-- Required `PositiveInt` field (`Bus.number`). -/
def getPosInt (m : FieldMap) (k : String) : Except FieldError ℤ :=
  match flookup m k with
  | some (.vint n) => if n ≤ 0 then .error ⟨k, "greater than 0"⟩ else .ok n
  | some _ => .error ⟨k, "Input should be a valid integer"⟩
  | none => .error ⟨k, "Field required"⟩

/-- Optional `ACBusTypes` field. -/
def getOptBustype (m : FieldMap) (k : String) : Except FieldError (Option ACBusTypes) :=
  match flookup m k with
  | some (.vbustype b) => .ok (some b)
  | some _ => .error ⟨k, "Input should be an ACBusTypes value"⟩
  | none => .ok none

/-- Optional nested `Area` field. -/
def getOptArea (m : FieldMap) (k : String) : Except FieldError (Option Area) :=
  match flookup m k with
  | some (.varea a) => .ok (some a)
  | some _ => .error ⟨k, "Input should be an Area instance"⟩
  | none => .ok none

/-- Optional nested `LoadZone` field. -/
def getOptLoadZone (m : FieldMap) (k : String) : Except FieldError (Option LoadZone) :=
  match flookup m k with
  | some (.vloadzone z) => .ok (some z)
  | some _ => .error ⟨k, "Input should be a LoadZone instance"⟩
  | none => .ok none

/-- Required nested `Bus` field (the endpoints of an `Arc`). -/
def getBus (m : FieldMap) (k : String) : Except FieldError Bus :=
  match flookup m k with
  | some (.vbus b) => .ok b
  | some _ => .error ⟨k, "Input should be a Bus instance"⟩
  | none => .error ⟨k, "Field required"⟩

/-- Optional `MinMax` field, validated through the bounded pair's own
constructor contract. -/
def getOptMinMax (m : FieldMap) (k : String) : Except FieldError (Option MinMax) :=
  match flookup m k with
  | some (.vpair mn mx) =>
    match MinMax.construct mn mx with
    | .ok v => .ok (some v)
    | .error _ => .error ⟨k, "min greater than max"⟩
  | some _ => .error ⟨k, "Input should be a MinMax pair"⟩
  | none => .ok none

/-- Optional `Voltage` field with `Field(gt=0)`: the quantity must be
voltage-dimensioned and strictly positive. -/
def getOptVoltage (m : FieldMap) (k : String) : Except FieldError (Option Quantity) :=
  match flookup m k with
  | some (.vquantity q) =>
    if q.dim ≠ UnitDim.voltage then .error ⟨k, "unit dimension mismatch"⟩
    else if q.magnitude ≤ 0 then .error ⟨k, "greater than 0"⟩
    else .ok (some q)
  | some _ => .error ⟨k, "Input should be a voltage quantity"⟩
  | none => .ok none

/-- Optional `NonNegativeFloat` field (`Bus.magnitude`). -/
def getOptNonNeg (m : FieldMap) (k : String) : Except FieldError (Option ℚ) :=
  match flookup m k with
  | some (.vrat q) => if q < 0 then .error ⟨k, "greater than or equal to 0"⟩ else .ok (some q)
  | some (.vint n) => if (n : ℚ) < 0 then .error ⟨k, "greater than or equal to 0"⟩ else .ok (some (n : ℚ))
  | some _ => .error ⟨k, "Input should be a valid number"⟩
  | none => .ok none

/-- Optional `angle` field of `ACBus` with `Field(gt=-1.571, lt=1.571)`. -/
def getOptAngle (m : FieldMap) (k : String) : Except FieldError (Option ℚ) :=
  match flookup m k with
  | some (.vrat q) =>
    if q ≤ -(1571/1000 : ℚ) then .error ⟨k, "greater than -1.571"⟩
    else if (1571/1000 : ℚ) ≤ q then .error ⟨k, "less than 1.571"⟩
    else .ok (some q)
  | some (.vint n) =>
    if (n : ℚ) ≤ -(1571/1000 : ℚ) then .error ⟨k, "greater than -1.571"⟩
    else if (1571/1000 : ℚ) ≤ (n : ℚ) then .error ⟨k, "less than 1.571"⟩
    else .ok (some (n : ℚ))
  | some _ => .error ⟨k, "Input should be a valid number"⟩
  | none => .ok none

/-- Strict construction: every key of the mapping that is not a declared
field is itself a violation. -/
def extraErrors (known : List String) (m : FieldMap) : List FieldError :=
  (m.filter (fun kv => ¬ known.contains kv.1)).map
    (fun kv => ⟨kv.1, "Extra inputs are not permitted"⟩)

/-- Declared fields of `Area` (own fields plus the inherited `name`). -/
def Area.knownKeys : List String :=
  ["name", "peak_active_power", "peak_reactive_power", "load_response"]

/-- All validation errors of an `Area` construction mapping, one entry per
violated field, field errors first and extra-key errors last. -/
def Area.fieldErrorList (m : FieldMap) : List FieldError :=
  errsOf (getStr m "name") ++
  errsOf (getNonNegRatD m "peak_active_power" 0) ++
  errsOf (getNonNegRatD m "peak_reactive_power" 0) ++
  errsOf (getRatD m "load_response" 0) ++
  extraErrors Area.knownKeys m

/-- Constructing an `Area` from a raw mapping: all violations are collected
into a single ValidationError, raised before any instance exists. -/
def Area.ofMap (m : FieldMap) : VResult Area :=
  if Area.fieldErrorList m = [] then
    .ok ⟨okD (getStr m "name") "",
         okD (getNonNegRatD m "peak_active_power" 0) 0,
         okD (getNonNegRatD m "peak_reactive_power" 0) 0,
         okD (getRatD m "load_response" 0) 0⟩
  else .error (Area.fieldErrorList m)

/-- Declared fields of `LoadZone`. -/
def LoadZone.knownKeys : List String :=
  ["name", "peak_active_power", "peak_reactive_power"]

/-- All validation errors of a `LoadZone` construction mapping. -/
def LoadZone.fieldErrorList (m : FieldMap) : List FieldError :=
  errsOf (getStr m "name") ++
  errsOf (getNonNegRatD m "peak_active_power" 0) ++
  errsOf (getNonNegRatD m "peak_reactive_power" 0) ++
  extraErrors LoadZone.knownKeys m

/-- Constructing a `LoadZone` from a raw mapping. -/
def LoadZone.ofMap (m : FieldMap) : VResult LoadZone :=
  if LoadZone.fieldErrorList m = [] then
    .ok ⟨okD (getStr m "name") "",
         okD (getNonNegRatD m "peak_active_power" 0) 0,
         okD (getNonNegRatD m "peak_reactive_power" 0) 0⟩
  else .error (LoadZone.fieldErrorList m)

/-- Declared fields of the Bus family (`Bus` and `DCBus`). -/
def DCBus.knownKeys : List String :=
  ["name", "number", "bustype", "area", "load_zone", "voltage_limits",
   "base_voltage", "magnitude"]

/-- All validation errors of a `DCBus` construction mapping. -/
def DCBus.fieldErrorList (m : FieldMap) : List FieldError :=
  errsOf (getStr m "name") ++
  errsOf (getPosInt m "number") ++
  errsOf (getOptBustype m "bustype") ++
  errsOf (getOptArea m "area") ++
  errsOf (getOptLoadZone m "load_zone") ++
  errsOf (getOptMinMax m "voltage_limits") ++
  errsOf (getOptVoltage m "base_voltage") ++
  errsOf (getOptNonNeg m "magnitude") ++
  extraErrors DCBus.knownKeys m

/-- Constructing a `DCBus` from a raw mapping. -/
def DCBus.ofMap (m : FieldMap) : VResult DCBus :=
  if DCBus.fieldErrorList m = [] then
    .ok ⟨okD (getStr m "name") "",
         okD (getPosInt m "number") 1,
         okD (getOptBustype m "bustype") none,
         okD (getOptArea m "area") none,
         okD (getOptLoadZone m "load_zone") none,
         okD (getOptMinMax m "voltage_limits") none,
         okD (getOptVoltage m "base_voltage") none,
         okD (getOptNonNeg m "magnitude") none⟩
  else .error (DCBus.fieldErrorList m)

/-- Declared fields of `ACBus`: the Bus fields plus `angle`. -/
def ACBus.knownKeys : List String :=
  ["name", "number", "bustype", "area", "load_zone", "voltage_limits",
   "base_voltage", "magnitude", "angle"]

/-- All validation errors of an `ACBus` construction mapping. -/
def ACBus.fieldErrorList (m : FieldMap) : List FieldError :=
  errsOf (getStr m "name") ++
  errsOf (getPosInt m "number") ++
  errsOf (getOptBustype m "bustype") ++
  errsOf (getOptArea m "area") ++
  errsOf (getOptLoadZone m "load_zone") ++
  errsOf (getOptMinMax m "voltage_limits") ++
  errsOf (getOptVoltage m "base_voltage") ++
  errsOf (getOptNonNeg m "magnitude") ++
  errsOf (getOptAngle m "angle") ++
  extraErrors ACBus.knownKeys m

/-- Constructing an `ACBus` from a raw mapping. -/
def ACBus.ofMap (m : FieldMap) : VResult ACBus :=
  if ACBus.fieldErrorList m = [] then
    .ok ⟨okD (getStr m "name") "",
         okD (getPosInt m "number") 1,
         okD (getOptBustype m "bustype") none,
         okD (getOptArea m "area") none,
         okD (getOptLoadZone m "load_zone") none,
         okD (getOptMinMax m "voltage_limits") none,
         okD (getOptVoltage m "base_voltage") none,
         okD (getOptNonNeg m "magnitude") none,
         okD (getOptAngle m "angle") none⟩
  else .error (ACBus.fieldErrorList m)

/-- Declared fields of `Arc`: the endpoints under their external labels
(`Field(alias="from")`, `Field(alias="to")`) plus the overridden `name`. -/
def Arc.knownKeys : List String :=
  ["name", "from", "to"]

/-- All validation errors of an `Arc` construction mapping. -/
def Arc.fieldErrorList (m : FieldMap) : List FieldError :=
  errsOf (getStrD m "name" "") ++
  errsOf (getBus m "from") ++
  errsOf (getBus m "to") ++
  extraErrors Arc.knownKeys m

/-- Constructing an `Arc` from a raw mapping. -/
def Arc.ofMap (m : FieldMap) : VResult Arc :=
  if Arc.fieldErrorList m = [] then
    .ok ⟨okD (getStrD m "name" "") "",
         okD (getBus m "from") ⟨"", 1, none, none, none, none, none, none⟩,
         okD (getBus m "to") ⟨"", 1, none, none, none, none, none, none⟩⟩
  else .error (Arc.fieldErrorList m)

/-- Claim C5: constructing a Bus-family entity (Bus, DCBus, ACBus) with
`number = n` and all other fields valid fails with a ValidationError when
`n ≤ 0` and succeeds when `n ≥ 1`. -/
theorem c5_number_positive_gate (s : String) (n : ℤ) :
    (isOkE (Bus.construct s n) = true ↔ 1 ≤ n) ∧
    (isOkE (DCBus.construct s n) = true ↔ 1 ≤ n) ∧
    (isOkE (ACBus.construct s n) = true ↔ 1 ≤ n) ∧
    (n ≤ 0 → Bus.construct s n = .error [⟨"number", "greater than 0"⟩]) := by
  by_cases hn : n ≤ 0 <;>
    simp [Bus.construct, DCBus.construct, ACBus.construct, busFieldErrors,
      angleFieldErrors, isOkE, hn] <;> omega

/-- Claim C3: constructing an ACBus with `angle = a` (other fields valid)
succeeds iff `-1.571 < a < 1.571`; both boundary values fail. -/
theorem c3_angle_open_interval (a : ℚ) :
    (isOkE (ACBus.construct "b" 1 none none none none none none (some a)) = true ↔
      (-(1571/1000 : ℚ) < a ∧ a < 1571/1000)) ∧
    (isOkE (ACBus.construct "b" 1 none none none none none none
      (some (-(1571/1000 : ℚ)))) = false) ∧
    (isOkE (ACBus.construct "b" 1 none none none none none none
      (some (1571/1000 : ℚ))) = false) := by
  refine ⟨?_, ?_, ?_⟩
  · by_cases h1 : a ≤ -(1571/1000 : ℚ) <;> by_cases h2 : (1571/1000 : ℚ) ≤ a <;>
      simp [ACBus.construct, busFieldErrors, angleFieldErrors, isOkE, h1, h2] <;>
      push_neg at h1 h2 <;> first | exact ⟨h1, h2⟩ | skip
  · simp [ACBus.construct, busFieldErrors, angleFieldErrors, isOkE]
  · simp [ACBus.construct, busFieldErrors, angleFieldErrors, isOkE]

/-- Claim C2: with `voltage_limits` supplied, Bus-family construction fails
whenever min > max and succeeds whenever min ≤ max, the check being the
bounded pair's own constructor contract applied during construction. -/
theorem c2_voltage_limits_gate (mn mx : ℚ) :
    (isOkE (MinMax.construct mn mx) = true ↔ mn ≤ mx) ∧
    (isOkE (Bus.construct "b" 1 none none none (some (mn, mx))) = true ↔ mn ≤ mx) ∧
    (isOkE (DCBus.construct "b" 1 none none none (some (mn, mx))) = true ↔ mn ≤ mx) ∧
    (isOkE (ACBus.construct "b" 1 none none none (some (mn, mx))) = true ↔ mn ≤ mx) := by
  by_cases h : mn ≤ mx <;>
    simp [MinMax.construct, Bus.construct, DCBus.construct, ACBus.construct,
      busFieldErrors, angleFieldErrors, isOkE, h]

/-- Claim C4: constructing a Bus-family entity with `base_voltage = v`
(other fields valid) succeeds iff v has strictly positive magnitude and a
voltage-dimensioned unit; a non-positive magnitude or a wrong dimension
fails with an error naming `base_voltage`. -/
theorem c4_base_voltage_gate (v : Quantity) :
    (isOkE (Bus.construct "b" 1 none none none none (some v)) = true ↔
      (0 < v.magnitude ∧ v.dim = UnitDim.voltage)) ∧
    (isOkE (DCBus.construct "b" 1 none none none none (some v)) = true ↔
      (0 < v.magnitude ∧ v.dim = UnitDim.voltage)) ∧
    (isOkE (ACBus.construct "b" 1 none none none none (some v)) = true ↔
      (0 < v.magnitude ∧ v.dim = UnitDim.voltage)) ∧
    (v.magnitude ≤ 0 → v.dim = UnitDim.voltage →
      Bus.construct "b" 1 none none none none (some v) =
        .error [⟨"base_voltage", "greater than 0"⟩]) ∧
    (v.dim ≠ UnitDim.voltage → ∃ errs,
      Bus.construct "b" 1 none none none none (some v) = .error errs ∧
        FieldError.mk "base_voltage" "unit dimension mismatch" ∈ errs) := by
  by_cases h1 : v.dim = UnitDim.voltage <;> by_cases h2 : v.magnitude ≤ 0 <;>
    simp [Bus.construct, DCBus.construct, ACBus.construct,
      busFieldErrors, angleFieldErrors, isOkE, h1, h2] <;>
    first
      | (intro h; linarith)
      | linarith
      | skip

/-- Claim C6: constructing Area or LoadZone with a negative
`peak_active_power` or `peak_reactive_power` fails with a ValidationError
naming the offending field, and succeeds for any non-negative value;
`load_response` of Area is unconstrained in sign. -/
theorem c6_peak_power_nonneg (p lr : ℚ) :
    (isOkE (Area.construct "a" p 0 lr) = true ↔ 0 ≤ p) ∧
    (isOkE (Area.construct "a" 0 p lr) = true ↔ 0 ≤ p) ∧
    (isOkE (LoadZone.construct "z" p 0) = true ↔ 0 ≤ p) ∧
    (isOkE (LoadZone.construct "z" 0 p) = true ↔ 0 ≤ p) ∧
    (isOkE (Area.construct "a" 0 0 lr) = true) ∧
    (p < 0 → ∃ errs, Area.construct "a" p 0 lr = .error errs ∧
      FieldError.mk "peak_active_power" "greater than or equal to 0" ∈ errs) ∧
    (p < 0 → ∃ errs, Area.construct "a" 0 p lr = .error errs ∧
      FieldError.mk "peak_reactive_power" "greater than or equal to 0" ∈ errs) ∧
    (p < 0 → ∃ errs, LoadZone.construct "z" p 0 = .error errs ∧
      FieldError.mk "peak_active_power" "greater than or equal to 0" ∈ errs) ∧
    (p < 0 → ∃ errs, LoadZone.construct "z" 0 p = .error errs ∧
      FieldError.mk "peak_reactive_power" "greater than or equal to 0" ∈ errs) := by
  by_cases h : p < 0 <;>
    simp [Area.construct, LoadZone.construct, isOkE, h] <;>
    first
      | linarith
      | skip

/-- Claim C7: `Area.example`, `LoadZone.example`, `DCBus.example` and
`ACBus.example` each succeed, and re-validating each produced entity
raises no error (example → validate → no error). -/
theorem c7_examples_roundtrip :
    Area.example = .ok ⟨"New York", 0, 0, 0⟩ ∧
    Area.validate ⟨"New York", 0, 0, 0⟩ = .ok ⟨"New York", 0, 0, 0⟩ ∧
    LoadZone.example = .ok ⟨"ExampleLoadZone", 0, 0⟩ ∧
    LoadZone.validate ⟨"ExampleLoadZone", 0, 0⟩ = .ok ⟨"ExampleLoadZone", 0, 0⟩ ∧
    DCBus.example = .ok ⟨"ExampleBus", 1, some ACBusTypes.PV, some ⟨"New York", 0, 0, 0⟩,
      some ⟨"ExampleLoadZone", 0, 0⟩, none, some ⟨20, UnitDim.voltage⟩, none⟩ ∧
    DCBus.validate ⟨"ExampleBus", 1, some ACBusTypes.PV, some ⟨"New York", 0, 0, 0⟩,
      some ⟨"ExampleLoadZone", 0, 0⟩, none, some ⟨20, UnitDim.voltage⟩, none⟩ =
      .ok ⟨"ExampleBus", 1, some ACBusTypes.PV, some ⟨"New York", 0, 0, 0⟩,
        some ⟨"ExampleLoadZone", 0, 0⟩, none, some ⟨20, UnitDim.voltage⟩, none⟩ ∧
    ACBus.example = .ok ⟨"ExampleBus", 1, some ACBusTypes.PV, some ⟨"New York", 0, 0, 0⟩,
      some ⟨"ExampleLoadZone", 0, 0⟩, some ⟨9/10, 11/10⟩, some ⟨13, UnitDim.voltage⟩,
      none, none⟩ ∧
    ACBus.validate ⟨"ExampleBus", 1, some ACBusTypes.PV, some ⟨"New York", 0, 0, 0⟩,
      some ⟨"ExampleLoadZone", 0, 0⟩, some ⟨9/10, 11/10⟩, some ⟨13, UnitDim.voltage⟩,
      none, none⟩ =
      .ok ⟨"ExampleBus", 1, some ACBusTypes.PV, some ⟨"New York", 0, 0, 0⟩,
        some ⟨"ExampleLoadZone", 0, 0⟩, some ⟨9/10, 11/10⟩, some ⟨13, UnitDim.voltage⟩,
        none, none⟩ := by
  norm_num [Area.example, LoadZone.example, DCBus.example, ACBus.example,
    Area.validate, LoadZone.validate, DCBus.validate, ACBus.validate,
    Area.construct, LoadZone.construct, DCBus.construct, ACBus.construct,
    busFieldErrors, angleFieldErrors, MinMax.construct, Bind.bind, Except.bind]

/-- Claim C8: omitting every optional field of the Bus hierarchy
(bustype, area, load_zone, voltage_limits, base_voltage, magnitude, and
angle for ACBus) always succeeds, and each omitted field reads as the
absent value `none`, distinguishable from any zero-like value. -/
theorem c8_optional_fields_absent (s : String) (n : ℕ) :
    Bus.construct s ((n : ℤ) + 1) =
      .ok ⟨s, (n : ℤ) + 1, none, none, none, none, none, none⟩ ∧
    DCBus.construct s ((n : ℤ) + 1) =
      .ok ⟨s, (n : ℤ) + 1, none, none, none, none, none, none⟩ ∧
    ACBus.construct s ((n : ℤ) + 1) =
      .ok ⟨s, (n : ℤ) + 1, none, none, none, none, none, none, none⟩ ∧
    (none : Option ACBusTypes) ≠ some ACBusTypes.PV ∧
    (none : Option ℚ) ≠ some 0 ∧
    (none : Option MinMax) ≠ some ⟨0, 0⟩ ∧
    (none : Option Quantity) ≠ some ⟨0, UnitDim.voltage⟩ := by
  have h : ¬ ((n : ℤ) + 1 ≤ 0) := by omega
  simp [Bus.construct, DCBus.construct, ACBus.construct, busFieldErrors,
    angleFieldErrors, h]

/-- Claim C10: the types described as abstract markers (Topology,
AggregationTopology, Bus) are directly constructible: for every string s
and every positive number, construction succeeds and yields an instance —
nothing in the code prevents instantiating them. -/
theorem c10_abstract_types_constructible (s : String) (n : ℕ) :
    Topology.construct s = .ok ⟨s⟩ ∧
    AggregationTopology.construct s = .ok ⟨s⟩ ∧
    Bus.construct s ((n : ℤ) + 1) =
      .ok ⟨s, (n : ℤ) + 1, none, none, none, none, none, none⟩ := by
  have h : ¬ ((n : ℤ) + 1 ≤ 0) := by omega
  simp [Topology.construct, AggregationTopology.construct, Bus.construct,
    busFieldErrors, h]

/-- Claim C1 counterexample: passing `name = "X"` at Arc construction
stores "X" in the name field, refuting "the resulting Arc's name equals
the empty string even when s is passed as the name" — `frozen=True` only
forbids assignment after construction. -/
theorem c1_name_not_forced_empty :
    Arc.construct ⟨"b", 1, none, none, none, none, none, none⟩
        ⟨"b", 1, none, none, none, none, none, none⟩ (some "X") =
      .ok ⟨"X", ⟨"b", 1, none, none, none, none, none, none⟩,
           ⟨"b", 1, none, none, none, none, none, none⟩⟩ ∧
    ("X" : String) ≠ "" := ⟨rfl, by decide⟩

/-- Claim C1 amended: constructing an Arc from two valid Bus values always
succeeds; the name field equals the empty string when no name is passed
(a name supplied at construction is stored verbatim, the field being
frozen only against later mutation); the name field is never included in
the Arc's serialized representation. -/
theorem c1_arc_name_default_and_excluded (b1 b2 : Bus) (s : String) :
    Arc.construct b1 b2 = .ok ⟨"", b1, b2⟩ ∧
    Arc.construct b1 b2 (some s) = .ok ⟨s, b1, b2⟩ ∧
    (∀ a : Arc, "name" ∉ (Arc.model_dump a).map Prod.fst) := by
  refine ⟨rfl, rfl, ?_⟩
  intro a
  simp [Arc.model_dump]

theorem errsOf_eq_nil {α : Type} {e : Except FieldError α} (h : errsOf e = []) :
    ∃ a, e = .ok a := by
  cases e <;> simp [errsOf] at h ⊢

theorem mem_extraErrors (known : List String) {m : FieldMap} {kv : String × PyValue}
    (h1 : kv ∈ m) (h2 : kv.1 ∉ known) :
    FieldError.mk kv.1 "Extra inputs are not permitted" ∈ extraErrors known m := by
  simp only [extraErrors, List.mem_map, List.mem_filter]
  exact ⟨kv, ⟨h1, by simpa using h2⟩, rfl⟩

theorem getNonNegRatD_ok {m : FieldMap} {k : String} {d q : ℚ}
    (h : getNonNegRatD m k d = .ok q) : 0 ≤ q := by
  unfold getNonNegRatD at h
  split at h <;> [skip; cases h]
  split at h <;> [cases h; skip]
  cases h
  linarith [not_lt.mp (by assumption)]

theorem getPosInt_ok {m : FieldMap} {k : String} {n : ℤ}
    (h : getPosInt m k = .ok n) : 1 ≤ n := by
  unfold getPosInt at h
  split at h
  · split at h <;> cases h
    omega
  · cases h
  · cases h

theorem getOptMinMax_ok {m : FieldMap} {k : String} {v : MinMax}
    (h : getOptMinMax m k = .ok (some v)) : v.min ≤ v.max := by
  unfold getOptMinMax at h
  split at h
  · split at h
    · next v2 heq =>
      cases h
      unfold MinMax.construct at heq
      split at heq
      · cases heq
        simpa using (by assumption : _ ≤ _)
      · cases heq
    · cases h
  · cases h
  · cases h

theorem getOptVoltage_ok {m : FieldMap} {k : String} {q : Quantity}
    (h : getOptVoltage m k = .ok (some q)) :
    q.dim = UnitDim.voltage ∧ 0 < q.magnitude := by
  unfold getOptVoltage at h
  split at h
  · split at h
    · cases h
    · split at h
      · cases h
      · cases h
        constructor
        · next hd _ => simpa using hd
        · next hm => linarith [not_le.mp hm]
  · cases h
  · cases h

theorem getOptNonNeg_ok {m : FieldMap} {k : String} {q : ℚ}
    (h : getOptNonNeg m k = .ok (some q)) : 0 ≤ q := by
  unfold getOptNonNeg at h
  split at h
  · split at h <;> cases h
    exact le_of_not_lt (by assumption)
  · split at h <;> cases h
    exact le_of_not_lt (by assumption)
  · cases h
  · cases h

theorem getOptAngle_ok {m : FieldMap} {k : String} {q : ℚ}
    (h : getOptAngle m k = .ok (some q)) :
    -(1571/1000 : ℚ) < q ∧ q < 1571/1000 := by
  unfold getOptAngle at h
  split at h
  · split at h
    · cases h
    · split at h
      · cases h
      · cases h
        exact ⟨lt_of_not_le (by assumption), lt_of_not_le (by assumption)⟩
  · split at h
    · cases h
    · split at h
      · cases h
      · cases h
        exact ⟨lt_of_not_le (by assumption), lt_of_not_le (by assumption)⟩
  · cases h
  · cases h

theorem area_ofMap_ok_pieces {m : FieldMap} {a : Area} (h : Area.ofMap m = .ok a) :
    Area.fieldErrorList m = [] ∧
    a = ⟨okD (getStr m "name") "", okD (getNonNegRatD m "peak_active_power" 0) 0,
         okD (getNonNegRatD m "peak_reactive_power" 0) 0,
         okD (getRatD m "load_response" 0) 0⟩ := by
  by_cases hn : Area.fieldErrorList m = []
  · refine ⟨hn, ?_⟩
    simp [Area.ofMap, hn] at h
    exact h.symm
  · simp [Area.ofMap, hn] at h

theorem area_ofMap_ok_valid {m : FieldMap} {a : Area} (h : Area.ofMap m = .ok a) :
    Area.validate a = .ok a ∧ extraErrors Area.knownKeys m = [] := by
  obtain ⟨hnil, ha⟩ := area_ofMap_ok_pieces h
  simp only [Area.fieldErrorList, List.append_eq_nil] at hnil
  obtain ⟨⟨⟨⟨h1, h2⟩, h3⟩, h4⟩, h5⟩ := hnil
  obtain ⟨pap, hp⟩ := errsOf_eq_nil h2
  obtain ⟨prp, hr⟩ := errsOf_eq_nil h3
  subst ha
  have hpap := getNonNegRatD_ok hp
  have hprp := getNonNegRatD_ok hr
  refine ⟨?_, h5⟩
  simp [Area.validate, Area.construct, hp, hr, okD, not_lt.mpr hpap, not_lt.mpr hprp]

theorem busFieldErrors_eq_nil {n : ℤ} {vl : Option (ℚ × ℚ)} {bv : Option Quantity}
    {mg : Option ℚ} (hn : 1 ≤ n)
    (hvl : ∀ p : ℚ × ℚ, vl = some p → p.1 ≤ p.2)
    (hbv : ∀ q : Quantity, bv = some q → q.dim = UnitDim.voltage ∧ 0 < q.magnitude)
    (hmg : ∀ q : ℚ, mg = some q → 0 ≤ q) :
    busFieldErrors n vl bv mg = [] := by
  have hn2 : ¬ n ≤ 0 := by omega
  rcases vl with _ | ⟨mn, mx⟩ <;> rcases bv with _ | q <;> rcases mg with _ | g <;>
    simp_all [busFieldErrors, MinMax.construct, not_le, not_lt] <;>
    simp_all [le_of_lt]

theorem angleFieldErrors_eq_nil {a : Option ℚ}
    (h : ∀ q : ℚ, a = some q → -(1571/1000 : ℚ) < q ∧ q < 1571/1000) :
    angleFieldErrors a = [] := by
  rcases a with _ | q <;> simp_all [angleFieldErrors, not_le]

theorem loadZone_ofMap_ok_pieces {m : FieldMap} {z : LoadZone}
    (h : LoadZone.ofMap m = .ok z) :
    LoadZone.fieldErrorList m = [] ∧
    z = ⟨okD (getStr m "name") "", okD (getNonNegRatD m "peak_active_power" 0) 0,
         okD (getNonNegRatD m "peak_reactive_power" 0) 0⟩ := by
  by_cases hn : LoadZone.fieldErrorList m = []
  · refine ⟨hn, ?_⟩
    simp [LoadZone.ofMap, hn] at h
    exact h.symm
  · simp [LoadZone.ofMap, hn] at h

theorem loadZone_ofMap_ok_valid {m : FieldMap} {z : LoadZone}
    (h : LoadZone.ofMap m = .ok z) :
    LoadZone.validate z = .ok z ∧ extraErrors LoadZone.knownKeys m = [] := by
  obtain ⟨hnil, hz⟩ := loadZone_ofMap_ok_pieces h
  simp only [LoadZone.fieldErrorList, List.append_eq_nil] at hnil
  obtain ⟨⟨⟨h1, h2⟩, h3⟩, h4⟩ := hnil
  obtain ⟨pap, hp⟩ := errsOf_eq_nil h2
  obtain ⟨prp, hr⟩ := errsOf_eq_nil h3
  subst hz
  have hpap := getNonNegRatD_ok hp
  have hprp := getNonNegRatD_ok hr
  refine ⟨?_, h4⟩
  simp [LoadZone.validate, LoadZone.construct, hp, hr, okD, not_lt.mpr hpap,
    not_lt.mpr hprp]

theorem dcBus_ofMap_ok_pieces {m : FieldMap} {b : DCBus} (h : DCBus.ofMap m = .ok b) :
    DCBus.fieldErrorList m = [] ∧
    b = ⟨okD (getStr m "name") "", okD (getPosInt m "number") 1,
         okD (getOptBustype m "bustype") none, okD (getOptArea m "area") none,
         okD (getOptLoadZone m "load_zone") none,
         okD (getOptMinMax m "voltage_limits") none,
         okD (getOptVoltage m "base_voltage") none,
         okD (getOptNonNeg m "magnitude") none⟩ := by
  by_cases hn : DCBus.fieldErrorList m = []
  · refine ⟨hn, ?_⟩
    simp [DCBus.ofMap, hn] at h
    exact h.symm
  · simp [DCBus.ofMap, hn] at h

theorem dcBus_ofMap_ok_valid {m : FieldMap} {b : DCBus} (h : DCBus.ofMap m = .ok b) :
    DCBus.validate b = .ok b ∧ extraErrors DCBus.knownKeys m = [] := by
  obtain ⟨hnil, hb⟩ := dcBus_ofMap_ok_pieces h
  simp only [DCBus.fieldErrorList, List.append_eq_nil] at hnil
  obtain ⟨⟨⟨⟨⟨⟨⟨⟨e1, e2⟩, e3⟩, e4⟩, e5⟩, e6⟩, e7⟩, e8⟩, e9⟩ := hnil
  obtain ⟨nm, h1⟩ := errsOf_eq_nil e1
  obtain ⟨num, h2⟩ := errsOf_eq_nil e2
  obtain ⟨bt, h3⟩ := errsOf_eq_nil e3
  obtain ⟨ar, h4⟩ := errsOf_eq_nil e4
  obtain ⟨lz, h5⟩ := errsOf_eq_nil e5
  obtain ⟨vl, h6⟩ := errsOf_eq_nil e6
  obtain ⟨bv, h7⟩ := errsOf_eq_nil e7
  obtain ⟨mg, h8⟩ := errsOf_eq_nil e8
  subst hb
  have hnum := getPosInt_ok h2
  have hvl : ∀ p : ℚ × ℚ, (vl.map (fun v : MinMax => (v.min, v.max))) = some p →
      p.1 ≤ p.2 := by
    intro p hp
    rcases vl with _ | v
    · simp at hp
    · simp at hp
      cases hp
      exact getOptMinMax_ok h6
  have hbv : ∀ q : Quantity, bv = some q →
      q.dim = UnitDim.voltage ∧ 0 < q.magnitude := by
    intro q hq
    subst hq
    exact getOptVoltage_ok h7
  have hmg : ∀ q : ℚ, mg = some q → 0 ≤ q := by
    intro q hq
    subst hq
    exact getOptNonNeg_ok h8
  have hbus := busFieldErrors_eq_nil hnum hvl hbv hmg
  refine ⟨?_, e9⟩
  simp only [DCBus.validate, DCBus.construct, h1, h2, h3, h4, h5, h6, h7, h8, okD, hbus,
    List.isEmpty_nil, if_true]
  rcases vl with _ | v <;> simp

theorem acBus_ofMap_ok_pieces {m : FieldMap} {b : ACBus} (h : ACBus.ofMap m = .ok b) :
    ACBus.fieldErrorList m = [] ∧
    b = ⟨okD (getStr m "name") "", okD (getPosInt m "number") 1,
         okD (getOptBustype m "bustype") none, okD (getOptArea m "area") none,
         okD (getOptLoadZone m "load_zone") none,
         okD (getOptMinMax m "voltage_limits") none,
         okD (getOptVoltage m "base_voltage") none,
         okD (getOptNonNeg m "magnitude") none,
         okD (getOptAngle m "angle") none⟩ := by
  by_cases hn : ACBus.fieldErrorList m = []
  · refine ⟨hn, ?_⟩
    simp [ACBus.ofMap, hn] at h
    exact h.symm
  · simp [ACBus.ofMap, hn] at h

theorem acBus_ofMap_ok_valid {m : FieldMap} {b : ACBus} (h : ACBus.ofMap m = .ok b) :
    ACBus.validate b = .ok b ∧ extraErrors ACBus.knownKeys m = [] := by
  obtain ⟨hnil, hb⟩ := acBus_ofMap_ok_pieces h
  simp only [ACBus.fieldErrorList, List.append_eq_nil] at hnil
  obtain ⟨⟨⟨⟨⟨⟨⟨⟨⟨e1, e2⟩, e3⟩, e4⟩, e5⟩, e6⟩, e7⟩, e8⟩, e9⟩, e10⟩ := hnil
  obtain ⟨nm, h1⟩ := errsOf_eq_nil e1
  obtain ⟨num, h2⟩ := errsOf_eq_nil e2
  obtain ⟨bt, h3⟩ := errsOf_eq_nil e3
  obtain ⟨ar, h4⟩ := errsOf_eq_nil e4
  obtain ⟨lz, h5⟩ := errsOf_eq_nil e5
  obtain ⟨vl, h6⟩ := errsOf_eq_nil e6
  obtain ⟨bv, h7⟩ := errsOf_eq_nil e7
  obtain ⟨mg, h8⟩ := errsOf_eq_nil e8
  obtain ⟨ang, h9⟩ := errsOf_eq_nil e9
  subst hb
  have hnum := getPosInt_ok h2
  have hvl : ∀ p : ℚ × ℚ, (vl.map (fun v : MinMax => (v.min, v.max))) = some p →
      p.1 ≤ p.2 := by
    intro p hp
    rcases vl with _ | v
    · simp at hp
    · simp at hp
      cases hp
      exact getOptMinMax_ok h6
  have hbv : ∀ q : Quantity, bv = some q →
      q.dim = UnitDim.voltage ∧ 0 < q.magnitude := by
    intro q hq
    subst hq
    exact getOptVoltage_ok h7
  have hmg : ∀ q : ℚ, mg = some q → 0 ≤ q := by
    intro q hq
    subst hq
    exact getOptNonNeg_ok h8
  have hang : ∀ q : ℚ, ang = some q → -(1571/1000 : ℚ) < q ∧ q < 1571/1000 := by
    intro q hq
    subst hq
    exact getOptAngle_ok h9
  have hbus := busFieldErrors_eq_nil hnum hvl hbv hmg
  have hangle := angleFieldErrors_eq_nil hang
  refine ⟨?_, e10⟩
  simp only [ACBus.validate, ACBus.construct, h1, h2, h3, h4, h5, h6, h7, h8, h9, okD,
    hbus, hangle, List.append_nil, List.isEmpty_nil, if_true]
  rcases vl with _ | v <;> simp

theorem arc_ofMap_ok_pieces {m : FieldMap} {a : Arc} (h : Arc.ofMap m = .ok a) :
    Arc.fieldErrorList m = [] ∧ extraErrors Arc.knownKeys m = [] := by
  by_cases hn : Arc.fieldErrorList m = []
  · refine ⟨hn, ?_⟩
    simp only [Arc.fieldErrorList, List.append_eq_nil] at hn
    exact hn.2
  · simp [Arc.ofMap, hn] at h

theorem area_ofMap_error_of_ne {m : FieldMap} (h : Area.fieldErrorList m ≠ []) :
    Area.ofMap m = .error (Area.fieldErrorList m) := by
  simp [Area.ofMap, h]

theorem area_ofMap_error_pieces {m : FieldMap} {errs : List FieldError}
    (h : Area.ofMap m = .error errs) : errs = Area.fieldErrorList m ∧ errs ≠ [] := by
  by_cases hn : Area.fieldErrorList m = [] <;> simp [Area.ofMap, hn] at h
  exact ⟨h.symm, h ▸ hn⟩

theorem loadZone_ofMap_error_of_ne {m : FieldMap} (h : LoadZone.fieldErrorList m ≠ []) :
    LoadZone.ofMap m = .error (LoadZone.fieldErrorList m) := by
  simp [LoadZone.ofMap, h]

theorem loadZone_ofMap_error_pieces {m : FieldMap} {errs : List FieldError}
    (h : LoadZone.ofMap m = .error errs) :
    errs = LoadZone.fieldErrorList m ∧ errs ≠ [] := by
  by_cases hn : LoadZone.fieldErrorList m = [] <;> simp [LoadZone.ofMap, hn] at h
  exact ⟨h.symm, h ▸ hn⟩

theorem dcBus_ofMap_error_of_ne {m : FieldMap} (h : DCBus.fieldErrorList m ≠ []) :
    DCBus.ofMap m = .error (DCBus.fieldErrorList m) := by
  simp [DCBus.ofMap, h]

theorem dcBus_ofMap_error_pieces {m : FieldMap} {errs : List FieldError}
    (h : DCBus.ofMap m = .error errs) : errs = DCBus.fieldErrorList m ∧ errs ≠ [] := by
  by_cases hn : DCBus.fieldErrorList m = [] <;> simp [DCBus.ofMap, hn] at h
  exact ⟨h.symm, h ▸ hn⟩

theorem acBus_ofMap_error_of_ne {m : FieldMap} (h : ACBus.fieldErrorList m ≠ []) :
    ACBus.ofMap m = .error (ACBus.fieldErrorList m) := by
  simp [ACBus.ofMap, h]

theorem acBus_ofMap_error_pieces {m : FieldMap} {errs : List FieldError}
    (h : ACBus.ofMap m = .error errs) : errs = ACBus.fieldErrorList m ∧ errs ≠ [] := by
  by_cases hn : ACBus.fieldErrorList m = [] <;> simp [ACBus.ofMap, hn] at h
  exact ⟨h.symm, h ▸ hn⟩

theorem arc_ofMap_error_of_ne {m : FieldMap} (h : Arc.fieldErrorList m ≠ []) :
    Arc.ofMap m = .error (Arc.fieldErrorList m) := by
  simp [Arc.ofMap, h]

theorem arc_ofMap_error_pieces {m : FieldMap} {errs : List FieldError}
    (h : Arc.ofMap m = .error errs) : errs = Arc.fieldErrorList m ∧ errs ≠ [] := by
  by_cases hn : Arc.fieldErrorList m = [] <;> simp [Arc.ofMap, hn] at h
  exact ⟨h.symm, h ▸ hn⟩

/-- Claim C9: for every concrete type and every input mapping, construction
either succeeds with an entity satisfying every declared constraint
(re-validation succeeds, no unknown key present) or fails with a single
nonempty ValidationError that is exactly the list of per-field violations,
enumerating every violated field with its reason — unknown/extra keys,
out-of-range numerics and missing required fields included — with no
partially constructed instance. -/
theorem c9_strict_exhaustive_validation :
    (∀ (m : FieldMap) (kv : String × PyValue), kv ∈ m → kv.1 ∉ Area.knownKeys →
      ∃ errs, Area.ofMap m = .error errs ∧
        FieldError.mk kv.1 "Extra inputs are not permitted" ∈ errs) ∧
    (∀ (m : FieldMap) (kv : String × PyValue), kv ∈ m → kv.1 ∉ LoadZone.knownKeys →
      ∃ errs, LoadZone.ofMap m = .error errs ∧
        FieldError.mk kv.1 "Extra inputs are not permitted" ∈ errs) ∧
    (∀ (m : FieldMap) (kv : String × PyValue), kv ∈ m → kv.1 ∉ DCBus.knownKeys →
      ∃ errs, DCBus.ofMap m = .error errs ∧
        FieldError.mk kv.1 "Extra inputs are not permitted" ∈ errs) ∧
    (∀ (m : FieldMap) (kv : String × PyValue), kv ∈ m → kv.1 ∉ ACBus.knownKeys →
      ∃ errs, ACBus.ofMap m = .error errs ∧
        FieldError.mk kv.1 "Extra inputs are not permitted" ∈ errs) ∧
    (∀ (m : FieldMap) (kv : String × PyValue), kv ∈ m → kv.1 ∉ Arc.knownKeys →
      ∃ errs, Arc.ofMap m = .error errs ∧
        FieldError.mk kv.1 "Extra inputs are not permitted" ∈ errs) ∧
    (∀ (m : FieldMap) (a : Area), Area.ofMap m = .ok a →
      Area.validate a = .ok a ∧ extraErrors Area.knownKeys m = []) ∧
    (∀ (m : FieldMap) (z : LoadZone), LoadZone.ofMap m = .ok z →
      LoadZone.validate z = .ok z ∧ extraErrors LoadZone.knownKeys m = []) ∧
    (∀ (m : FieldMap) (b : DCBus), DCBus.ofMap m = .ok b →
      DCBus.validate b = .ok b ∧ extraErrors DCBus.knownKeys m = []) ∧
    (∀ (m : FieldMap) (b : ACBus), ACBus.ofMap m = .ok b →
      ACBus.validate b = .ok b ∧ extraErrors ACBus.knownKeys m = []) ∧
    (∀ (m : FieldMap) (a : Arc), Arc.ofMap m = .ok a →
      Arc.fieldErrorList m = [] ∧ extraErrors Arc.knownKeys m = []) ∧
    (∀ (m : FieldMap) (errs : List FieldError), Area.ofMap m = .error errs →
      errs = Area.fieldErrorList m ∧ errs ≠ []) ∧
    (∀ (m : FieldMap) (errs : List FieldError), LoadZone.ofMap m = .error errs →
      errs = LoadZone.fieldErrorList m ∧ errs ≠ []) ∧
    (∀ (m : FieldMap) (errs : List FieldError), DCBus.ofMap m = .error errs →
      errs = DCBus.fieldErrorList m ∧ errs ≠ []) ∧
    (∀ (m : FieldMap) (errs : List FieldError), ACBus.ofMap m = .error errs →
      errs = ACBus.fieldErrorList m ∧ errs ≠ []) ∧
    (∀ (m : FieldMap) (errs : List FieldError), Arc.ofMap m = .error errs →
      errs = Arc.fieldErrorList m ∧ errs ≠ []) ∧
    (∀ (m : FieldMap) (p : ℚ), flookup m "peak_active_power" = some (.vrat p) → p < 0 →
      FieldError.mk "peak_active_power" "greater than or equal to 0" ∈
        Area.fieldErrorList m ∧
      FieldError.mk "peak_active_power" "greater than or equal to 0" ∈
        LoadZone.fieldErrorList m) ∧
    (∀ (m : FieldMap) (p : ℚ), flookup m "peak_reactive_power" = some (.vrat p) → p < 0 →
      FieldError.mk "peak_reactive_power" "greater than or equal to 0" ∈
        Area.fieldErrorList m ∧
      FieldError.mk "peak_reactive_power" "greater than or equal to 0" ∈
        LoadZone.fieldErrorList m) ∧
    (∀ (m : FieldMap) (n : ℤ), flookup m "number" = some (.vint n) → n ≤ 0 →
      FieldError.mk "number" "greater than 0" ∈ DCBus.fieldErrorList m ∧
      FieldError.mk "number" "greater than 0" ∈ ACBus.fieldErrorList m) ∧
    (∀ (m : FieldMap) (mn mx : ℚ), flookup m "voltage_limits" = some (.vpair mn mx) →
      mx < mn →
      FieldError.mk "voltage_limits" "min greater than max" ∈ DCBus.fieldErrorList m ∧
      FieldError.mk "voltage_limits" "min greater than max" ∈ ACBus.fieldErrorList m) ∧
    (∀ (m : FieldMap) (q : Quantity), flookup m "base_voltage" = some (.vquantity q) →
      q.dim = UnitDim.voltage → q.magnitude ≤ 0 →
      FieldError.mk "base_voltage" "greater than 0" ∈ DCBus.fieldErrorList m ∧
      FieldError.mk "base_voltage" "greater than 0" ∈ ACBus.fieldErrorList m) ∧
    (∀ (m : FieldMap) (q : Quantity), flookup m "base_voltage" = some (.vquantity q) →
      q.dim ≠ UnitDim.voltage →
      FieldError.mk "base_voltage" "unit dimension mismatch" ∈ DCBus.fieldErrorList m ∧
      FieldError.mk "base_voltage" "unit dimension mismatch" ∈ ACBus.fieldErrorList m) ∧
    (∀ (m : FieldMap) (p : ℚ), flookup m "magnitude" = some (.vrat p) → p < 0 →
      FieldError.mk "magnitude" "greater than or equal to 0" ∈ DCBus.fieldErrorList m ∧
      FieldError.mk "magnitude" "greater than or equal to 0" ∈ ACBus.fieldErrorList m) ∧
    (∀ (m : FieldMap) (aq : ℚ), flookup m "angle" = some (.vrat aq) →
      (1571/1000 : ℚ) ≤ aq →
      FieldError.mk "angle" "less than 1.571" ∈ ACBus.fieldErrorList m) ∧
    (∀ (m : FieldMap), flookup m "number" = none →
      FieldError.mk "number" "Field required" ∈ DCBus.fieldErrorList m) ∧
    (∀ (m : FieldMap), flookup m "from" = none →
      FieldError.mk "from" "Field required" ∈ Arc.fieldErrorList m) := by
  refine ⟨?_, ?_, ?_, ?_, ?_, ?_, ?_, ?_, ?_, ?_, ?_, ?_, ?_, ?_, ?_, ?_, ?_, ?_, ?_,
    ?_, ?_, ?_, ?_, ?_, ?_⟩
  · intro m kv h1 h2
    have hmem := mem_extraErrors Area.knownKeys h1 h2
    have hfl : FieldError.mk kv.1 "Extra inputs are not permitted" ∈
        Area.fieldErrorList m := List.mem_append_right _ hmem
    exact ⟨_, area_ofMap_error_of_ne (List.ne_nil_of_mem hfl), hfl⟩
  · intro m kv h1 h2
    have hmem := mem_extraErrors LoadZone.knownKeys h1 h2
    have hfl : FieldError.mk kv.1 "Extra inputs are not permitted" ∈
        LoadZone.fieldErrorList m := List.mem_append_right _ hmem
    exact ⟨_, loadZone_ofMap_error_of_ne (List.ne_nil_of_mem hfl), hfl⟩
  · intro m kv h1 h2
    have hmem := mem_extraErrors DCBus.knownKeys h1 h2
    have hfl : FieldError.mk kv.1 "Extra inputs are not permitted" ∈
        DCBus.fieldErrorList m := List.mem_append_right _ hmem
    exact ⟨_, dcBus_ofMap_error_of_ne (List.ne_nil_of_mem hfl), hfl⟩
  · intro m kv h1 h2
    have hmem := mem_extraErrors ACBus.knownKeys h1 h2
    have hfl : FieldError.mk kv.1 "Extra inputs are not permitted" ∈
        ACBus.fieldErrorList m := List.mem_append_right _ hmem
    exact ⟨_, acBus_ofMap_error_of_ne (List.ne_nil_of_mem hfl), hfl⟩
  · intro m kv h1 h2
    have hmem := mem_extraErrors Arc.knownKeys h1 h2
    have hfl : FieldError.mk kv.1 "Extra inputs are not permitted" ∈
        Arc.fieldErrorList m := List.mem_append_right _ hmem
    exact ⟨_, arc_ofMap_error_of_ne (List.ne_nil_of_mem hfl), hfl⟩
  · intro m a h
    exact area_ofMap_ok_valid h
  · intro m z h
    exact loadZone_ofMap_ok_valid h
  · intro m b h
    exact dcBus_ofMap_ok_valid h
  · intro m b h
    exact acBus_ofMap_ok_valid h
  · intro m a h
    exact arc_ofMap_ok_pieces h
  · intro m errs h
    exact area_ofMap_error_pieces h
  · intro m errs h
    exact loadZone_ofMap_error_pieces h
  · intro m errs h
    exact dcBus_ofMap_error_pieces h
  · intro m errs h
    exact acBus_ofMap_error_pieces h
  · intro m errs h
    exact arc_ofMap_error_pieces h
  · intro m p hl hp
    have hg : getNonNegRatD m "peak_active_power" 0 =
        .error ⟨"peak_active_power", "greater than or equal to 0"⟩ := by
      simp [getNonNegRatD, getRatD, hl, hp]
    constructor <;> simp [Area.fieldErrorList, LoadZone.fieldErrorList, errsOf, hg]
  · intro m p hl hp
    have hg : getNonNegRatD m "peak_reactive_power" 0 =
        .error ⟨"peak_reactive_power", "greater than or equal to 0"⟩ := by
      simp [getNonNegRatD, getRatD, hl, hp]
    constructor <;> simp [Area.fieldErrorList, LoadZone.fieldErrorList, errsOf, hg]
  · intro m n hl hn
    have hg : getPosInt m "number" = .error ⟨"number", "greater than 0"⟩ := by
      simp [getPosInt, hl, hn]
    constructor <;> simp [DCBus.fieldErrorList, ACBus.fieldErrorList, errsOf, hg]
  · intro m mn mx hl hmx
    have hg : getOptMinMax m "voltage_limits" =
        .error ⟨"voltage_limits", "min greater than max"⟩ := by
      simp [getOptMinMax, MinMax.construct, hl, not_le.mpr hmx]
    constructor <;> simp [DCBus.fieldErrorList, ACBus.fieldErrorList, errsOf, hg]
  · intro m q hl hd hm
    have hg : getOptVoltage m "base_voltage" =
        .error ⟨"base_voltage", "greater than 0"⟩ := by
      simp [getOptVoltage, hl, hd, hm]
    constructor <;> simp [DCBus.fieldErrorList, ACBus.fieldErrorList, errsOf, hg]
  · intro m q hl hd
    have hg : getOptVoltage m "base_voltage" =
        .error ⟨"base_voltage", "unit dimension mismatch"⟩ := by
      simp [getOptVoltage, hl, hd]
    constructor <;> simp [DCBus.fieldErrorList, ACBus.fieldErrorList, errsOf, hg]
  · intro m p hl hp
    have hg : getOptNonNeg m "magnitude" =
        .error ⟨"magnitude", "greater than or equal to 0"⟩ := by
      simp [getOptNonNeg, hl, hp]
    constructor <;> simp [DCBus.fieldErrorList, ACBus.fieldErrorList, errsOf, hg]
  · intro m aq hl ha
    have hg : getOptAngle m "angle" = .error ⟨"angle", "less than 1.571"⟩ := by
      have h1 : ¬ aq ≤ -(1571/1000 : ℚ) := by linarith
      simp [getOptAngle, hl, h1, ha]
    simp [ACBus.fieldErrorList, errsOf, hg]
  · intro m hl
    have hg : getPosInt m "number" = .error ⟨"number", "Field required"⟩ := by
      simp [getPosInt, hl]
    simp [DCBus.fieldErrorList, errsOf, hg]
  · intro m hl
    have hg : getBus m "from" = .error ⟨"from", "Field required"⟩ := by
      simp [getBus, hl]
    simp [Arc.fieldErrorList, errsOf, hg]

/-- Witness for claim C5 at the concrete input n = 0. -/
theorem c5_number_positive_gate_witness :
    (0 : ℤ) ≤ 0 ∧ Bus.construct "b" 0 = .error [⟨"number", "greater than 0"⟩] :=
  ⟨by decide, (c5_number_positive_gate "b" 0).2.2.2 (by decide)⟩

/-- Witness for claim C4 at the concrete quantity -1 kV. -/
theorem c4_base_voltage_gate_witness :
    (Quantity.mk (-1) UnitDim.voltage).magnitude ≤ 0 ∧
    (Quantity.mk (-1) UnitDim.voltage).dim = UnitDim.voltage ∧
    Bus.construct "b" 1 none none none none (some ⟨-1, UnitDim.voltage⟩) =
      .error [⟨"base_voltage", "greater than 0"⟩] :=
  ⟨by decide, rfl,
    (c4_base_voltage_gate ⟨-1, UnitDim.voltage⟩).2.2.2.1 (by decide) rfl⟩

/-- Witness for claim C6 at the concrete input p = -1. -/
theorem c6_peak_power_nonneg_witness :
    (-1 : ℚ) < 0 ∧
    (∃ errs, Area.construct "a" (-1) 0 5 = .error errs ∧
      FieldError.mk "peak_active_power" "greater than or equal to 0" ∈ errs) :=
  ⟨by decide, (c6_peak_power_nonneg (-1) 5).2.2.2.2.2.1 (by decide)⟩

/-- Witness for claim C8 at the concrete inputs s = "b", n = 0. -/
theorem c8_optional_fields_absent_witness :
    Bus.construct "b" ((0 : ℕ) + 1 : ℤ) =
      .ok ⟨"b", ((0 : ℕ) + 1 : ℤ), none, none, none, none, none, none⟩ ∧
    (none : Option ℚ) ≠ some 0 :=
  ⟨by
    have h := (c8_optional_fields_absent "b" 0).1
    simpa using h,
   (c8_optional_fields_absent "b" 0).2.2.2.2.1⟩

/-- Witness for the amended claim C1 at two concrete buses. -/
theorem c1_arc_name_default_and_excluded_witness :
    Arc.construct ⟨"b", 1, none, none, none, none, none, none⟩
        ⟨"b", 1, none, none, none, none, none, none⟩ =
      .ok ⟨"", ⟨"b", 1, none, none, none, none, none, none⟩,
           ⟨"b", 1, none, none, none, none, none, none⟩⟩ ∧
    "name" ∉ (Arc.model_dump ⟨"", ⟨"b", 1, none, none, none, none, none, none⟩,
      ⟨"b", 1, none, none, none, none, none, none⟩⟩).map Prod.fst :=
  ⟨(c1_arc_name_default_and_excluded ⟨"b", 1, none, none, none, none, none, none⟩
      ⟨"b", 1, none, none, none, none, none, none⟩ "X").1,
   (c1_arc_name_default_and_excluded ⟨"b", 1, none, none, none, none, none, none⟩
      ⟨"b", 1, none, none, none, none, none, none⟩ "X").2.2 _⟩

/-- Witness for claim C9: a mapping with the unknown key "bogus" is
rejected with an error naming that key. -/
theorem c9_strict_exhaustive_validation_witness :
    (("bogus", PyValue.vint 3) ∈
      ([("name", PyValue.vstr "a"), ("bogus", PyValue.vint 3)] : FieldMap)) ∧
    ("bogus" ∉ Area.knownKeys) ∧
    (∃ errs, Area.ofMap [("name", PyValue.vstr "a"), ("bogus", PyValue.vint 3)] =
        .error errs ∧
      FieldError.mk "bogus" "Extra inputs are not permitted" ∈ errs) :=
  ⟨by decide, by decide,
    c9_strict_exhaustive_validation.1
      [("name", PyValue.vstr "a"), ("bogus", PyValue.vint 3)]
      ("bogus", PyValue.vint 3) (by decide) (by decide)⟩
